import Mathlib

/-!
Shallow embedding of `trax/rl/base_trainer.py` (class `BaseTrainer`).

Conventions of the embedding:
* Python object state becomes an explicit `BaseTrainer` record; methods become
  functions returning updated records.
* The filesystem touched by the trainer is modelled by `FS`: trajectory shard
  files (one per epoch index, path `<dump_dir>/<epoch>.pkl`, content the
  pickled list of trajectories) become a map `Nat → Option (List Trajectory)`;
  `tf.io.gfile.makedirs` becomes a directory-existence flag; the `__done__`
  marker file becomes a flag.
* Python `assert` failures / fatal misconfigurations become `Except` errors
  (`TrainerError`).
* The abstract methods (`epoch`, `train_epoch`, `maybe_save`, `save`,
  `evaluate`, `flush_summaries`) raise `NotImplementedError` in the base class
  and are supplied by subclasses; they are modelled as a `Hooks` record of
  state transformers over an abstract subclass-state type, and `epoch` is
  passed to `dump_trajectories` as an argument.
-/

/-- One step of environment interaction; `action` is `None` (here `none`) for
the very first step after a reset, before any action has been taken.
`observation` is an opaque payload distinguishing steps. -/
structure TimeStep where
  observation : Nat
  action : Option Nat
deriving DecidableEq

/-- An episode's ordered record of time steps (`trajectory.time_steps`). -/
structure Trajectory where
  time_steps : List TimeStep
deriving DecidableEq

/-- A gym-style space descriptor, compared by `shape` and `dtype`
(`assert_same_space` in the source compares exactly these two). -/
structure Space where
  shape : List Nat
  dtype : String
deriving DecidableEq

/-- Modelled from the spec: the environment's trajectory store capability
(`train_env.trajectories`), whose implementation lives outside this source
file. The spec requires it to expose the completed trajectories, a
force-complete of all in-flight trajectories, and a clear of the completed
set. -/
structure TrajectoryStore where
  completed_trajectories : List Trajectory
  live_trajectories : List Trajectory
deriving DecidableEq

/-- Modelled from the spec: `complete_all_trajectories` turns every still-open
episode into a completed one (appended after the already-completed ones) and
leaves no in-flight trajectory. -/
def complete_all_trajectories (s : TrajectoryStore) : TrajectoryStore :=
  { completed_trajectories := s.completed_trajectories ++ s.live_trajectories,
    live_trajectories := [] }

/-- Modelled from the spec: `clear_completed_trajectories` empties the
completed set. -/
def clear_completed_trajectories (s : TrajectoryStore) : TrajectoryStore :=
  { s with completed_trajectories := [] }

/-- An environment (`EnvProblem`): two structural space descriptors plus the
trajectory store. -/
structure Env where
  action_space : Space
  observation_space : Space
  trajectories : TrajectoryStore
deriving DecidableEq

/-- The filesystem state the trainer interacts with. `shards k` is the content
of the shard file `<trajectory_dump_dir>/<k>.pkl` (`none` when the file does
not exist); `dumpDirExists` / `outputDirExists` record the directories created
by `tf.io.gfile.makedirs`; `doneMarker` records existence of the zero-length
`<output_dir>/__done__` marker file. -/
structure FS where
  shards : Nat → Option (List Trajectory)
  dumpDirExists : Bool
  outputDirExists : Bool
  doneMarker : Bool

/-- Errors of the trainer core: `IncompatibleEnvironment` for the
`_assert_env_compatible` assertion failure, `MisconfiguredOutput` for the
`assert self._output_dir is not None` failure in `reset`. -/
inductive TrainerError where
  | IncompatibleEnvironment
  | MisconfiguredOutput
deriving DecidableEq

/-- The `BaseTrainer` object state after construction. The constructor runs
the `train_env` setter on the initially-`None` `_train_env`, so after
`__init__` the environment and the reference spaces are always present; they
are therefore embedded as non-optional fields. -/
structure BaseTrainer where
  train_env : Env
  action_space : Space
  observation_space : Space
  should_reset_train_env : Bool
  eval_env : Env
  trajectory_dump_dir : Option String
  trajectory_dump_min_count_per_shard : Nat
  trajectory_buffer : List Trajectory
  async_mode : Bool
  output_dir : Option String
  trainer_reset_called : Bool

/-- `BaseTrainer.__init__`: the first `train_env` binding adopts the new
environment's spaces unconditionally (the `self._train_env is None` branch of
the setter); the buffer starts empty and `_trainer_reset_called` false.
Python defaults: `output_dir=None`, `trajectory_dump_dir=None`,
`trajectory_dump_min_count_per_shard=16`, `async_mode=False`. -/
def BaseTrainer.init (train_env eval_env : Env) (output_dir : Option String)
    (trajectory_dump_dir : Option String)
    (trajectory_dump_min_count_per_shard : Nat) (async_mode : Bool) :
    BaseTrainer :=
  { train_env := train_env
    action_space := train_env.action_space
    observation_space := train_env.observation_space
    should_reset_train_env := true
    eval_env := eval_env
    trajectory_dump_dir := trajectory_dump_dir
    trajectory_dump_min_count_per_shard := trajectory_dump_min_count_per_shard
    trajectory_buffer := []
    async_mode := async_mode
    output_dir := output_dir
    trainer_reset_called := false }

/-- `assert_same_space` (inner function of `_assert_env_compatible`): the two
spaces must agree on `shape` and on `dtype`. -/
def assert_same_space (space1 space2 : Space) : Bool :=
  decide (space1.shape = space2.shape) && decide (space1.dtype = space2.dtype)

/-- `_assert_env_compatible`: checks the new environment's observation space
and then its action space against the stored reference spaces; an assertion
failure is the `IncompatibleEnvironment` error. -/
def assert_env_compatible (t : BaseTrainer) (new_env : Env) :
    Except TrainerError Unit :=
  if assert_same_space new_env.observation_space t.observation_space &&
      assert_same_space new_env.action_space t.action_space then
    .ok ()
  else
    .error .IncompatibleEnvironment

/-- The `train_env` setter on a constructed trainer (`self._train_env` is no
longer `None`, so the compatibility check runs): on success the current
environment reference is replaced and `_should_reset_train_env` is set; the
stored reference spaces are not updated. -/
def set_train_env (t : BaseTrainer) (new_train_env : Env) :
    Except TrainerError BaseTrainer :=
  match assert_env_compatible t new_train_env with
  | .error err => .error err
  | .ok _ =>
      .ok { t with train_env := new_train_env, should_reset_train_env := true }

/-- `reset`: records that reset was called, takes the explicit argument as the
new output directory when given, fails with `MisconfiguredOutput` when no
output directory is available from any source, and otherwise creates the
output directory. -/
def reset (t : BaseTrainer) (output_dir : Option String) (fs : FS) :
    Except TrainerError (BaseTrainer × FS) :=
  let t1 : BaseTrainer := { t with trainer_reset_called := true }
  let t2 : BaseTrainer :=
    match output_dir with
    | some d => { t1 with output_dir := some d }
    | none => t1
  match t2.output_dir with
  | none => .error .MisconfiguredOutput
  | some _ => .ok (t2, { fs with outputDirExists := true })

/-- `has_any_action` (inner function of `dump_trajectories`): Python's
`trajectory.time_steps and trajectory.time_steps[0].action is not None`, where
an empty `time_steps` list is falsy, so the first step is only inspected when
it exists. -/
def has_any_action (trajectory : Trajectory) : Bool :=
  match trajectory.time_steps with
  | [] => false
  | step :: _ => step.action.isSome

/-- The merge-on-write of `dump_trajectories`: if a shard file already exists
at the path, its deserialized contents are prepended to the buffer before the
rewrite; otherwise the buffer alone is written. -/
def mergedShard (prior : Option (List Trajectory)) (buffer : List Trajectory) :
    List Trajectory :=
  match prior with
  | some p => p ++ buffer
  | none => buffer

/-- Body of `dump_trajectories` after the `trajectory_dump_dir is None` early
return (lines 144-175 of the source): create the dump directory, optionally
force-complete the store, extend the buffer with the non-degenerate completed
trajectories, clear the store's completed set, and if the buffer reached the
minimum shard size or `force` is set, write (merging with any existing shard
at this epoch's path) and empty the buffer. -/
def dump_core (t : BaseTrainer) (epoch : Nat) (fs : FS) (force : Bool) :
    BaseTrainer × FS :=
  let fs1 : FS := { fs with dumpDirExists := true }
  let store1 :=
    if force then complete_all_trajectories t.train_env.trajectories
    else t.train_env.trajectories
  let buffer1 :=
    t.trajectory_buffer ++ store1.completed_trajectories.filter has_any_action
  let t1 : BaseTrainer :=
    { t with
      train_env := { t.train_env with trajectories := clear_completed_trajectories store1 }
      trajectory_buffer := buffer1 }
  if t.trajectory_dump_min_count_per_shard ≤ buffer1.length ∨ force = true then
    let merged := mergedShard (fs1.shards epoch) buffer1
    ({ t1 with trajectory_buffer := [] },
     { fs1 with shards := fun k => if k = epoch then some merged else fs1.shards k })
  else
    (t1, fs1)

/-- `dump_trajectories(force)`: a no-op when no dump directory is configured;
`self.epoch` (abstract in the base class) is passed as the `epoch` argument. -/
def dump_trajectories (t : BaseTrainer) (epoch : Nat) (fs : FS) (force : Bool) :
    BaseTrainer × FS :=
  match t.trajectory_dump_dir with
  | none => (t, fs)
  | some _ => dump_core t epoch fs force

/-- `indicate_done`: a no-op unless in async mode; in async mode writes the
zero-length `__done__` marker inside the output directory. -/
def indicate_done (t : BaseTrainer) (fs : FS) : FS :=
  if !t.async_mode then fs
  else { fs with doneMarker := true }

/-- The trajectories a single `dump_trajectories` call contributes beyond the
pre-existing buffer: the store's completed set (after force-completion when
`force`) with the degenerate trajectories filtered out. -/
def new_contributions (t : BaseTrainer) (force : Bool) : List Trajectory :=
  (if force then complete_all_trajectories t.train_env.trajectories
   else t.train_env.trajectories).completed_trajectories.filter has_any_action

/-- Replace the training environment's trajectory store (scenario setup: the
environment accumulating state between two dump calls). -/
def set_store (t : BaseTrainer) (s : TrajectoryStore) : BaseTrainer :=
  { t with train_env := { t.train_env with trajectories := s } }

/-- The observable calls made by `training_loop`, in order, for stating the
sequencing contract. -/
inductive Event where
  | reset
  | train_epoch (evaluate : Bool)
  | maybe_save
  | dump (force : Bool)
  | save
  | evaluate
  | flush_summaries
  | indicate_done
deriving DecidableEq

/-- The abstract methods a concrete subclass supplies (`NotImplementedError`
in the base class). `σ` is the subclass's own state; the hooks may also read
and mutate the base-trainer state (they are methods on `self`), but the
current epoch index is subclass state (`epoch : σ → Nat`). The hooks do not
touch the shard files, the done marker or the managed directories: those are
written only by `dump_trajectories`, `indicate_done` and `reset` in the base
class. -/
structure Hooks (σ : Type) where
  epoch : σ → Nat
  train_epoch : Bool → BaseTrainer × σ → BaseTrainer × σ
  maybe_save : BaseTrainer × σ → BaseTrainer × σ
  save : BaseTrainer × σ → BaseTrainer × σ
  evaluate : BaseTrainer × σ → BaseTrainer × σ
  flush_summaries : BaseTrainer × σ → BaseTrainer × σ

/-- Combined state threaded through `training_loop`: base-trainer state,
subclass state, filesystem, and the trace of observable calls so far. -/
structure LoopState (σ : Type) where
  t : BaseTrainer
  s : σ
  fs : FS
  trace : List Event

/-- One iteration of the `for` body: `train_epoch(evaluate=evaluate)`, then
`maybe_save()`, then `dump_trajectories()` (at the epoch the subclass reports
after training). -/
def loop_iter {σ : Type} (H : Hooks σ) (evaluate : Bool) (st : LoopState σ) :
    LoopState σ :=
  let p1 := H.train_epoch evaluate (st.t, st.s)
  let p2 := H.maybe_save p1
  let r := dump_trajectories p2.1 (H.epoch p2.2) st.fs false
  { t := r.1, s := p2.2, fs := r.2,
    trace := st.trace ++ [Event.train_epoch evaluate, Event.maybe_save, Event.dump false] }

/-- `k` iterations of the `for` body. -/
def loop_iters {σ : Type} (H : Hooks σ) (evaluate : Bool) :
    Nat → LoopState σ → LoopState σ
  | 0, st => st
  | k + 1, st => loop_iters H evaluate k (loop_iter H evaluate st)

/-- The part of `training_loop` after the `for` loop: `save()`, a forced
dump, `evaluate()` when requested, `flush_summaries()`, `indicate_done()`. -/
def after_loop {σ : Type} (H : Hooks σ) (evaluate : Bool) (st : LoopState σ) :
    LoopState σ :=
  let p1 := H.save (st.t, st.s)
  let r := dump_trajectories p1.1 (H.epoch p1.2) st.fs true
  let p2 := if evaluate then H.evaluate (r.1, p1.2) else (r.1, p1.2)
  let p3 := H.flush_summaries p2
  let fs3 := indicate_done p3.1 r.2
  { t := p3.1, s := p3.2, fs := fs3,
    trace := st.trace ++ [Event.save, Event.dump true] ++
      (if evaluate then [Event.evaluate] else []) ++
      [Event.flush_summaries, Event.indicate_done] }

/-- `training_loop(n_epochs, evaluate)`: an implicit `reset` (passing the
already-configured output directory) when reset was never called, then the
`for _ in range(self.epoch, n_epochs)` loop — whose iteration count is fixed
at loop entry as `n_epochs - epoch` (empty when `epoch ≥ n_epochs`) — then
the post-loop sequence. -/
def training_loop {σ : Type} (H : Hooks σ) (n_epochs : Nat) (evaluate : Bool)
    (st : LoopState σ) : Except TrainerError (LoopState σ) :=
  let start : Except TrainerError (LoopState σ) :=
    if st.t.trainer_reset_called then .ok st
    else
      match reset st.t st.t.output_dir st.fs with
      | .error err => .error err
      | .ok (t1, fs1) =>
          .ok { st with t := t1, fs := fs1, trace := st.trace ++ [Event.reset] }
  match start with
  | .error err => .error err
  | .ok st1 =>
      .ok (after_loop H evaluate
        (loop_iters H evaluate (n_epochs - H.epoch st1.s) st1))

-- Concrete sample data used by the witness theorems below.

def sampleSpace : Space := { shape := [4], dtype := "float32" }

def sampleTraj (n : Nat) : Trajectory :=
  { time_steps := [{ observation := n, action := some n }] }

def degenTraj : Trajectory :=
  { time_steps := [{ observation := 0, action := none }] }

def noStepsTraj : Trajectory := { time_steps := [] }

def emptyStore : TrajectoryStore :=
  { completed_trajectories := [], live_trajectories := [] }

def sampleStore : TrajectoryStore :=
  { completed_trajectories := [sampleTraj 1, degenTraj, sampleTraj 2],
    live_trajectories := [sampleTraj 3] }

def sampleEnv : Env :=
  { action_space := sampleSpace, observation_space := sampleSpace,
    trajectories := sampleStore }

def emptyStoreEnv : Env :=
  { action_space := sampleSpace, observation_space := sampleSpace,
    trajectories := emptyStore }

def emptyFS : FS :=
  { shards := fun _ => none, dumpDirExists := false, outputDirExists := false,
    doneMarker := false }

/-- An `FS` with a shard already present at epoch 0. -/
def shardFS : FS :=
  { emptyFS with shards := fun k => if k = 0 then some [sampleTraj 9] else none }

/-- A second store state: what the environment holds by the time of a second
dump call. -/
def twoStore : TrajectoryStore :=
  { completed_trajectories := [sampleTraj 4], live_trajectories := [sampleTraj 5] }

def sampleTrainerNoDir : BaseTrainer :=
  BaseTrainer.init sampleEnv sampleEnv none none 16 false

def sampleTrainerDir : BaseTrainer :=
  BaseTrainer.init sampleEnv sampleEnv (some "out") (some "dump") 2 false

def trainerEmptyStore : BaseTrainer :=
  BaseTrainer.init emptyStoreEnv emptyStoreEnv (some "out") (some "dump") 16 false

/-- A space differing from `sampleSpace` in shape only (the spec's
`shape(6,), float32` example). -/
def space6 : Space := { shape := [6], dtype := "float32" }

/-- An environment whose action space shape differs from the reference. -/
def env6 : Env :=
  { action_space := space6, observation_space := sampleSpace,
    trajectories := emptyStore }

/-- A store holding a trajectory with no time steps next to a normal one. -/
def storeWithEmptyTraj : TrajectoryStore :=
  { completed_trajectories := [noStepsTraj, sampleTraj 7],
    live_trajectories := [] }

def envWithEmptyTraj : Env :=
  { action_space := sampleSpace, observation_space := sampleSpace,
    trajectories := storeWithEmptyTraj }

def trainerWithEmptyTraj : BaseTrainer :=
  BaseTrainer.init envWithEmptyTraj envWithEmptyTraj (some "out") (some "dump")
    16 false

/-- The hooks leave the base-trainer state alone and do not toggle async mode
(real subclasses write checkpoints and summaries, neither of which is the
`__done__` marker, a shard file, or the async flag). -/
def PreservesAsyncMode {σ : Type} (H : Hooks σ) : Prop :=
  (∀ ev p, (H.train_epoch ev p).1.async_mode = p.1.async_mode) ∧
  (∀ p, (H.maybe_save p).1.async_mode = p.1.async_mode) ∧
  (∀ p, (H.save p).1.async_mode = p.1.async_mode) ∧
  (∀ p, (H.evaluate p).1.async_mode = p.1.async_mode) ∧
  (∀ p, (H.flush_summaries p).1.async_mode = p.1.async_mode)

/-- A concrete subclass: the subclass state is the epoch counter itself and
the epoch-training hook advances it by `step`; all other hooks do nothing. -/
def natHooks (step : Nat) : Hooks Nat :=
  { epoch := fun s => s
    train_epoch := fun _ p => (p.1, p.2 + step)
    maybe_save := fun p => p
    save := fun p => p
    evaluate := fun p => p
    flush_summaries := fun p => p }

/-- A trainer on which `reset` has already been performed. -/
def trainerReady : BaseTrainer :=
  { sampleTrainerNoDir with trainer_reset_called := true }

/-- A trainer in async mode. -/
def asyncTrainer : BaseTrainer :=
  { sampleTrainerNoDir with async_mode := true }

/-- Loop start state at epoch 0 with an empty trace. -/
def loopStart : LoopState Nat :=
  { t := trainerReady, s := 0, fs := emptyFS, trace := [] }

theorem dump_trajectories_none (t : BaseTrainer) (e : Nat) (fs : FS)
    (force : Bool) (h : t.trajectory_dump_dir = none) :
    dump_trajectories t e fs force = (t, fs) := by
  unfold dump_trajectories
  rw [h]

theorem dump_trajectories_some (t : BaseTrainer) (e : Nat) (fs : FS)
    (force : Bool) (d : String) (h : t.trajectory_dump_dir = some d) :
    dump_trajectories t e fs force = dump_core t e fs force := by
  unfold dump_trajectories
  rw [h]

/-- Unfolded form of `dump_core`, phrased through `new_contributions`. -/
theorem dump_core_eq (t : BaseTrainer) (e : Nat) (fs : FS) (force : Bool) :
    dump_core t e fs force =
      (if t.trajectory_dump_min_count_per_shard ≤
            (t.trajectory_buffer ++ new_contributions t force).length ∨
          force = true then
        ({ t with
            train_env := { t.train_env with
              trajectories := clear_completed_trajectories
                (if force then complete_all_trajectories t.train_env.trajectories
                 else t.train_env.trajectories) }
            trajectory_buffer := [] },
         { fs with
           dumpDirExists := true,
           shards := fun k =>
             if k = e then
               some (mergedShard (fs.shards e)
                 (t.trajectory_buffer ++ new_contributions t force))
             else fs.shards k })
      else
        ({ t with
            train_env := { t.train_env with
              trajectories := clear_completed_trajectories
                (if force then complete_all_trajectories t.train_env.trajectories
                 else t.train_env.trajectories) }
            trajectory_buffer := t.trajectory_buffer ++ new_contributions t force },
         { fs with dumpDirExists := true })) := rfl

theorem mem_mergedShard_right {tr : Trajectory} (prior : Option (List Trajectory))
    {b : List Trajectory} (h : tr ∈ b) : tr ∈ mergedShard prior b := by
  cases prior <;> simp [mergedShard, h]

theorem mem_mergedShard_iff {tr : Trajectory} {prior : Option (List Trajectory)}
    {b : List Trajectory} :
    tr ∈ mergedShard prior b ↔ (∃ p, prior = some p ∧ tr ∈ p) ∨ tr ∈ b := by
  cases prior <;> simp [mergedShard]

theorem has_any_action_of_mem_new_contributions {tr : Trajectory}
    {t : BaseTrainer} {force : Bool} (h : tr ∈ new_contributions t force) :
    has_any_action tr = true :=
  (List.mem_filter.mp h).2

-- Sanity checks of the embedding on small inputs.
example :
    has_any_action { time_steps := [] } = false := by decide

example :
    has_any_action { time_steps := [{ observation := 5, action := none }] } = false := by decide

example :
    has_any_action
      { time_steps := [{ observation := 5, action := some 1 }] } = true := by decide

/-- C10: if no trajectory dump directory is configured, `dump_trajectories`
returns (for either value of `force`) without changing any state: the trainer
(buffer and environment store included) and the filesystem (shards,
directories, marker) are returned exactly as given. -/
theorem C10_dump_no_dir_noop (t : BaseTrainer) (e : Nat) (fs : FS)
    (force : Bool) (h : t.trajectory_dump_dir = none) :
    dump_trajectories t e fs force = (t, fs) :=
  dump_trajectories_none t e fs force h

/-- Witness for C10 at a concrete trainer with no dump directory. -/
theorem C10_witness :
    sampleTrainerNoDir.trajectory_dump_dir = none ∧
    dump_trajectories sampleTrainerNoDir 0 emptyFS false =
      (sampleTrainerNoDir, emptyFS) ∧
    dump_trajectories sampleTrainerNoDir 0 emptyFS true =
      (sampleTrainerNoDir, emptyFS) :=
  ⟨rfl, C10_dump_no_dir_noop sampleTrainerNoDir 0 emptyFS false rfl,
    C10_dump_no_dir_noop sampleTrainerNoDir 0 emptyFS true rfl⟩

/-- C4: with a dump directory configured, `dump_trajectories(force=true)`
always leaves the trajectory buffer empty and writes a shard for the current
epoch containing the merge of any prior on-disk shard with the buffered and
newly contributed trajectories — with no minimum-count requirement (the write
condition holds by `force` alone, so this covers buffers below the minimum and
zero new contributions). -/
theorem C4_force_dump_flushes (t : BaseTrainer) (e : Nat) (fs : FS)
    (d : String) (hd : t.trajectory_dump_dir = some d) :
    (dump_trajectories t e fs true).1.trajectory_buffer = [] ∧
    (dump_trajectories t e fs true).2.shards e =
      some (mergedShard (fs.shards e)
        (t.trajectory_buffer ++ new_contributions t true)) := by
  rw [dump_trajectories_some t e fs true d hd, dump_core_eq]
  rw [if_pos (Or.inr rfl)]
  exact ⟨rfl, by simp⟩

/-- Witness for C4: a forced dump contributing zero new trajectories onto an
existing shard rewrites the shard with exactly the prior content and empties
the buffer. -/
theorem C4_witness :
    trainerEmptyStore.trajectory_dump_dir = some "dump" ∧
    (dump_trajectories trainerEmptyStore 0 shardFS true).1.trajectory_buffer = [] ∧
    (dump_trajectories trainerEmptyStore 0 shardFS true).2.shards 0 =
      some [sampleTraj 9] := by
  have h := C4_force_dump_flushes trainerEmptyStore 0 shardFS "dump" rfl
  refine ⟨rfl, h.1, ?_⟩
  rw [h.2]
  rfl

/-- C3: with a dump directory configured, a `dump_trajectories(force=false)`
call (i) writes no shard while the buffered count is below the configured
minimum — the buffer then holds the old buffer followed by the filtered new
completed trajectories and the on-disk shards are untouched — and (ii) every
trajectory in the environment's completed set at call time is either
degenerate (filtered) or ends up in the returned buffer or in the shard
written at the current epoch: none is otherwise dropped. -/
theorem C3_dump_no_loss (t : BaseTrainer) (e : Nat) (fs : FS) (d : String)
    (hd : t.trajectory_dump_dir = some d) :
    ((t.trajectory_buffer ++ new_contributions t false).length <
        t.trajectory_dump_min_count_per_shard →
      (dump_trajectories t e fs false).1.trajectory_buffer =
          t.trajectory_buffer ++ new_contributions t false ∧
        (dump_trajectories t e fs false).2.shards = fs.shards) ∧
    (∀ tr ∈ t.train_env.trajectories.completed_trajectories,
      has_any_action tr = false ∨
        tr ∈ (dump_trajectories t e fs false).1.trajectory_buffer ∨
        ∃ L, (dump_trajectories t e fs false).2.shards e = some L ∧ tr ∈ L) := by
  rw [dump_trajectories_some t e fs false d hd, dump_core_eq]
  have hred : new_contributions t false =
      t.train_env.trajectories.completed_trajectories.filter has_any_action := rfl
  constructor
  · intro hlt
    rw [if_neg ?hc]
    case hc =>
      rintro (hc | hc)
      · omega
      · exact absurd hc (by decide)
    exact ⟨rfl, rfl⟩
  · intro tr htr
    rcases Bool.eq_false_or_eq_true (has_any_action tr) with hact | hact
    swap
    · exact Or.inl hact
    · right
      have hmem : tr ∈ new_contributions t false := by
        rw [hred]
        exact List.mem_filter.mpr ⟨htr, hact⟩
      by_cases hc : t.trajectory_dump_min_count_per_shard ≤
          (t.trajectory_buffer ++ new_contributions t false).length ∨
          (false : Bool) = true
      · rw [if_pos hc]
        refine Or.inr ⟨mergedShard (fs.shards e)
          (t.trajectory_buffer ++ new_contributions t false), by simp, ?_⟩
        exact mem_mergedShard_right _ (List.mem_append_right _ hmem)
      · rw [if_neg hc]
        exact Or.inl (List.mem_append_right _ hmem)

/-- Witness for C3 at a concrete below-minimum state (no write, buffer keeps
everything) and a concrete completed trajectory (not dropped). -/
theorem C3_witness :
    ((trainerEmptyStore.trajectory_buffer ++
        new_contributions trainerEmptyStore false).length <
      trainerEmptyStore.trajectory_dump_min_count_per_shard) ∧
    (dump_trajectories trainerEmptyStore 0 emptyFS false).1.trajectory_buffer =
      trainerEmptyStore.trajectory_buffer ++
        new_contributions trainerEmptyStore false ∧
    (dump_trajectories trainerEmptyStore 0 emptyFS false).2.shards =
      emptyFS.shards ∧
    (has_any_action (sampleTraj 1) = false ∨
      sampleTraj 1 ∈ (dump_trajectories sampleTrainerDir 0 emptyFS false).1.trajectory_buffer ∨
      ∃ L, (dump_trajectories sampleTrainerDir 0 emptyFS false).2.shards 0 =
        some L ∧ sampleTraj 1 ∈ L) := by
  have h1 := (C3_dump_no_loss trainerEmptyStore 0 emptyFS "dump" rfl).1 (by decide)
  have h2 := (C3_dump_no_loss sampleTrainerDir 0 emptyFS "dump" rfl).2
    (sampleTraj 1) (by decide)
  exact ⟨by decide, h1.1, h1.2, h2⟩

/-- C1: dumping twice at the same epoch — a first dump that writes (here a
periodic one made ready by the minimum count), then a forced second dump with
the shard file present — produces a single shard whose trajectory sequence is
the previously written on-disk sequence followed by the second call's newly
buffered sequence; the buffer is left empty and no other epoch's shard is
touched, so nothing is duplicated or lost. -/
theorem C1_double_dump_merge (t : BaseTrainer) (e : Nat) (fs : FS) (d : String)
    (S : TrajectoryStore) (hd : t.trajectory_dump_dir = some d)
    (hready : t.trajectory_dump_min_count_per_shard ≤
      (t.trajectory_buffer ++ new_contributions t false).length) :
    (dump_trajectories t e fs false).2.shards e =
      some (mergedShard (fs.shards e)
        (t.trajectory_buffer ++ new_contributions t false)) ∧
    (dump_trajectories (set_store (dump_trajectories t e fs false).1 S) e
        (dump_trajectories t e fs false).2 true).2.shards e =
      some (mergedShard (fs.shards e)
          (t.trajectory_buffer ++ new_contributions t false) ++
        (complete_all_trajectories S).completed_trajectories.filter
          has_any_action) ∧
    (dump_trajectories (set_store (dump_trajectories t e fs false).1 S) e
        (dump_trajectories t e fs false).2 true).1.trajectory_buffer = [] ∧
    (∀ k, k ≠ e →
      (dump_trajectories (set_store (dump_trajectories t e fs false).1 S) e
          (dump_trajectories t e fs false).2 true).2.shards k = fs.shards k) := by
  have hd2 : (set_store (dump_trajectories t e fs false).1 S).trajectory_dump_dir =
      some d := by
    rw [dump_trajectories_some t e fs false d hd, dump_core_eq,
      if_pos (Or.inl hready)]
    exact hd
  rw [dump_trajectories_some _ e _ true d hd2,
    dump_trajectories_some t e fs false d hd]
  simp only [dump_core_eq]
  rw [if_pos (Or.inl hready)]
  refine ⟨by simp, ?_, ?_, ?_⟩
  · simp [set_store, new_contributions, mergedShard]
  · simp [set_store]
  · intro k hk
    simp [set_store, hk]

/-- Witness for C1: concrete double dump at epoch 0 — the first (ready) dump
writes the two non-degenerate completed trajectories, the forced second dump
merges them before the two trajectories completed in between. -/
theorem C1_witness :
    (sampleTrainerDir.trajectory_dump_min_count_per_shard ≤
      (sampleTrainerDir.trajectory_buffer ++
        new_contributions sampleTrainerDir false).length) ∧
    (dump_trajectories sampleTrainerDir 0 emptyFS false).2.shards 0 =
      some [sampleTraj 1, sampleTraj 2] ∧
    (dump_trajectories
        (set_store (dump_trajectories sampleTrainerDir 0 emptyFS false).1 twoStore)
        0 (dump_trajectories sampleTrainerDir 0 emptyFS false).2 true).2.shards 0 =
      some [sampleTraj 1, sampleTraj 2, sampleTraj 4, sampleTraj 5] := by
  have h := C1_double_dump_merge sampleTrainerDir 0 emptyFS "dump" twoStore rfl
    (by decide)
  refine ⟨by decide, ?_, ?_⟩
  · rw [h.1]; rfl
  · rw [h.2.1]; rfl

/-- C5: degenerate trajectories (first step has no action) are filtered out
before buffering and never reach a shard: if the buffer and every existing
shard contain only trajectories with an action, the same holds after any
`dump_trajectories` call (for either `force`), over any epoch. -/
theorem C5_no_degenerate_written (t : BaseTrainer) (e : Nat) (fs : FS)
    (force : Bool)
    (hbuf : ∀ tr ∈ t.trajectory_buffer, has_any_action tr = true)
    (hfs : ∀ k L, fs.shards k = some L → ∀ tr ∈ L, has_any_action tr = true) :
    (∀ tr ∈ (dump_trajectories t e fs force).1.trajectory_buffer,
      has_any_action tr = true) ∧
    (∀ k L, (dump_trajectories t e fs force).2.shards k = some L →
      ∀ tr ∈ L, has_any_action tr = true) := by
  cases hdir : t.trajectory_dump_dir with
  | none =>
      rw [dump_trajectories_none t e fs force hdir]
      exact ⟨hbuf, hfs⟩
  | some d =>
      rw [dump_trajectories_some t e fs force d hdir, dump_core_eq]
      have hbuf1 : ∀ tr ∈ t.trajectory_buffer ++ new_contributions t force,
          has_any_action tr = true := by
        intro tr htr
        rcases List.mem_append.mp htr with hmem | hmem
        · exact hbuf tr hmem
        · exact has_any_action_of_mem_new_contributions hmem
      by_cases hc : t.trajectory_dump_min_count_per_shard ≤
          (t.trajectory_buffer ++ new_contributions t force).length ∨
          force = true
      · rw [if_pos hc]
        constructor
        · intro tr htr
          exact absurd htr (List.not_mem_nil tr)
        · intro k L hL tr htr
          have hL' : (if k = e then
              some (mergedShard (fs.shards e)
                (t.trajectory_buffer ++ new_contributions t force))
            else fs.shards k) = some L := hL
          by_cases hk : k = e
          · rw [if_pos hk] at hL'
            have hLm : L = mergedShard (fs.shards e)
                (t.trajectory_buffer ++ new_contributions t force) :=
              (Option.some.inj hL').symm
            rcases mem_mergedShard_iff.mp (hLm ▸ htr) with ⟨p, hp, hmem⟩ | hmem
            · exact hfs e p hp tr hmem
            · exact hbuf1 tr hmem
          · rw [if_neg hk] at hL'
            exact hfs k L hL' tr htr
      · rw [if_neg hc]
        exact ⟨hbuf1, fun k L hL tr htr => hfs k L hL tr htr⟩

/-- Witness for C5: the concrete shard written by a ready periodic dump, and
the fact (obtained through the theorem) that its first element carries an
action. -/
theorem C5_witness :
    (dump_trajectories sampleTrainerDir 0 emptyFS false).2.shards 0 =
      some [sampleTraj 1, sampleTraj 2] ∧
    has_any_action (sampleTraj 1) = true := by
  have h := C5_no_degenerate_written sampleTrainerDir 0 emptyFS false
    (fun tr htr => absurd htr (List.not_mem_nil tr))
    (fun k L hL => nomatch hL)
  have hsh : (dump_trajectories sampleTrainerDir 0 emptyFS false).2.shards 0 =
      some [sampleTraj 1, sampleTraj 2] := by decide
  exact ⟨hsh, h.2 0 [sampleTraj 1, sampleTraj 2] hsh (sampleTraj 1) (by decide)⟩

/-- C9: the degeneracy check is total on trajectories with no time steps —
Python's truthiness guard makes `has_any_action` false without inspecting a
first step — and such a trajectory is never appended to the buffer nor
written to any shard by `dump_trajectories`. -/
theorem C9_empty_trajectory_filtered (tr : Trajectory)
    (hsteps : tr.time_steps = []) (t : BaseTrainer) (e : Nat) (fs : FS)
    (force : Bool) (hbuf : tr ∉ t.trajectory_buffer)
    (hfs : ∀ k L, fs.shards k = some L → tr ∉ L) :
    has_any_action tr = false ∧
    tr ∉ (dump_trajectories t e fs force).1.trajectory_buffer ∧
    (∀ k L, (dump_trajectories t e fs force).2.shards k = some L → tr ∉ L) := by
  have hact : has_any_action tr = false := by
    unfold has_any_action
    rw [hsteps]
  have hnb : tr ∉ t.trajectory_buffer ++ new_contributions t force := by
    intro hmem
    rcases List.mem_append.mp hmem with hmem | hmem
    · exact hbuf hmem
    · rw [has_any_action_of_mem_new_contributions hmem] at hact
      exact Bool.noConfusion hact
  refine ⟨hact, ?_, ?_⟩
  all_goals cases hdir : t.trajectory_dump_dir with
  | none =>
      rw [dump_trajectories_none t e fs force hdir]
      first
      | exact hbuf
      | exact hfs
  | some d =>
      rw [dump_trajectories_some t e fs force d hdir, dump_core_eq]
      by_cases hc : t.trajectory_dump_min_count_per_shard ≤
          (t.trajectory_buffer ++ new_contributions t force).length ∨
          force = true
      case pos =>
        rw [if_pos hc]
        first
        | exact List.not_mem_nil tr
        | · intro k L hL
            have hL' : (if k = e then
                some (mergedShard (fs.shards e)
                  (t.trajectory_buffer ++ new_contributions t force))
              else fs.shards k) = some L := hL
            by_cases hk : k = e
            · rw [if_pos hk] at hL'
              have hLm : L = mergedShard (fs.shards e)
                  (t.trajectory_buffer ++ new_contributions t force) :=
                (Option.some.inj hL').symm
              intro htr
              rcases mem_mergedShard_iff.mp (hLm ▸ htr) with ⟨p, hp, hmem⟩ | hmem
              · exact hfs e p hp hmem
              · exact hnb hmem
            · rw [if_neg hk] at hL'
              exact hfs k L hL'
      case neg =>
        rw [if_neg hc]
        first
        | exact hnb
        | exact fun k L hL => hfs k L hL

/-- Witness for C9: a trajectory with no time steps sits in the completed set,
is classified degenerate, and the forced dump writes a shard holding only the
other trajectory. -/
theorem C9_witness :
    noStepsTraj ∈ trainerWithEmptyTraj.train_env.trajectories.completed_trajectories ∧
    has_any_action noStepsTraj = false ∧
    noStepsTraj ∉ (dump_trajectories trainerWithEmptyTraj 0 emptyFS true).1.trajectory_buffer ∧
    (dump_trajectories trainerWithEmptyTraj 0 emptyFS true).2.shards 0 =
      some [sampleTraj 7] := by
  have h := C9_empty_trajectory_filtered noStepsTraj rfl trainerWithEmptyTraj 0
    emptyFS true (List.not_mem_nil _) (fun k L hL => nomatch hL)
  exact ⟨by decide, h.1, h.2.1, by decide⟩

theorem reset_error_of_no_output_dir (t : BaseTrainer) (fs : FS)
    (ho : t.output_dir = none) :
    reset t none fs = .error .MisconfiguredOutput := by
  obtain ⟨env, as, os, srte, ee, tdd, mc, tb, am, od, trc⟩ := t
  cases ho
  rfl

theorem reset_ok_of_output_dir (t : BaseTrainer) (fs : FS) (d : String)
    (ho : t.output_dir = some d) :
    reset t none fs =
      .ok ({ t with trainer_reset_called := true },
        { fs with outputDirExists := true }) := by
  obtain ⟨env, as, os, srte, ee, tdd, mc, tb, am, od, trc⟩ := t
  cases ho
  rfl

theorem reset_ok_of_arg (t : BaseTrainer) (fs : FS) (d : String) :
    reset t (some d) fs =
      .ok ({ t with trainer_reset_called := true, output_dir := some d },
        { fs with outputDirExists := true }) := rfl

/-- C7: `reset` needs a non-empty effective output directory: with neither an
explicit argument nor a configured directory it fails with
`MisconfiguredOutput` (no default is invented); with an explicit argument it
adopts it, marks reset performed and creates the directory; with only the
configured directory it keeps it, marks reset performed and creates the
directory. -/
theorem C7_reset_output_dir (t : BaseTrainer) (fs : FS) (d : String) :
    (t.output_dir = none →
      reset t none fs = .error .MisconfiguredOutput) ∧
    (reset t (some d) fs =
      .ok ({ t with trainer_reset_called := true, output_dir := some d },
        { fs with outputDirExists := true })) ∧
    (t.output_dir = some d →
      reset t none fs =
        .ok ({ t with trainer_reset_called := true },
          { fs with outputDirExists := true })) :=
  ⟨fun ho => reset_error_of_no_output_dir t fs ho,
   reset_ok_of_arg t fs d,
   fun ho => reset_ok_of_output_dir t fs d ho⟩

/-- Witness for C7 on concrete trainers with and without an output dir. -/
theorem C7_witness :
    reset sampleTrainerNoDir none emptyFS = .error .MisconfiguredOutput ∧
    reset sampleTrainerNoDir (some "out2") emptyFS =
      .ok ({ sampleTrainerNoDir with
               trainer_reset_called := true,
               output_dir := some "out2" },
        { emptyFS with outputDirExists := true }) ∧
    reset sampleTrainerDir none emptyFS =
      .ok ({ sampleTrainerDir with trainer_reset_called := true },
        { emptyFS with outputDirExists := true }) :=
  ⟨(C7_reset_output_dir sampleTrainerNoDir emptyFS "out2").1 rfl,
   (C7_reset_output_dir sampleTrainerNoDir emptyFS "out2").2.1,
   (C7_reset_output_dir sampleTrainerDir emptyFS "out").2.2 rfl⟩

/-- C6: the first environment binding (performed by the constructor) adopts
the new environment's spaces unconditionally; a subsequent bind whose action
or observation space differs in shape or element type fails with
`IncompatibleEnvironment`; a subsequent bind agreeing on both shapes and both
element types succeeds and replaces the current environment reference. -/
theorem C6_env_compatibility (e0 ev : Env) (od dd : Option String) (mc : Nat)
    (am : Bool) (t : BaseTrainer) (e1 e2 : Env)
    (hbad : e1.observation_space.shape ≠ t.observation_space.shape ∨
      e1.observation_space.dtype ≠ t.observation_space.dtype ∨
      e1.action_space.shape ≠ t.action_space.shape ∨
      e1.action_space.dtype ≠ t.action_space.dtype)
    (hg1 : e2.observation_space.shape = t.observation_space.shape)
    (hg2 : e2.observation_space.dtype = t.observation_space.dtype)
    (hg3 : e2.action_space.shape = t.action_space.shape)
    (hg4 : e2.action_space.dtype = t.action_space.dtype) :
    ((BaseTrainer.init e0 ev od dd mc am).action_space = e0.action_space ∧
      (BaseTrainer.init e0 ev od dd mc am).observation_space =
        e0.observation_space ∧
      (BaseTrainer.init e0 ev od dd mc am).train_env = e0) ∧
    set_train_env t e1 = .error .IncompatibleEnvironment ∧
    set_train_env t e2 =
      .ok { t with train_env := e2, should_reset_train_env := true } := by
  refine ⟨⟨rfl, rfl, rfl⟩, ?_, ?_⟩
  · rcases hbad with h | h | h | h <;>
      simp [set_train_env, assert_env_compatible, assert_same_space, h]
  · simp [set_train_env, assert_env_compatible, assert_same_space,
      hg1, hg2, hg3, hg4]

/-- Witness for C6: the spec's example — first bind with action shape `[4]`
float32, an incompatible second bind with shape `[6]` fails, an identical
second bind succeeds and swaps the environment. -/
theorem C6_witness :
    (BaseTrainer.init sampleEnv sampleEnv none none 16 false).action_space =
      sampleEnv.action_space ∧
    set_train_env sampleTrainerDir env6 = .error .IncompatibleEnvironment ∧
    set_train_env sampleTrainerDir emptyStoreEnv =
      .ok { sampleTrainerDir with
            train_env := emptyStoreEnv,
            should_reset_train_env := true } := by
  have h := C6_env_compatibility sampleEnv sampleEnv none none 16 false
    sampleTrainerDir env6 emptyStoreEnv
    (Or.inr (Or.inr (Or.inl (by decide)))) (by decide) (by decide) (by decide)
    (by decide)
  exact ⟨h.1.1, h.2.1, h.2.2⟩

theorem dump_preserves_async (t : BaseTrainer) (e : Nat) (fs : FS)
    (force : Bool) :
    (dump_trajectories t e fs force).1.async_mode = t.async_mode := by
  cases hdir : t.trajectory_dump_dir with
  | none => rw [dump_trajectories_none t e fs force hdir]
  | some d =>
      rw [dump_trajectories_some t e fs force d hdir, dump_core_eq]
      split <;> rfl

theorem dump_preserves_doneMarker (t : BaseTrainer) (e : Nat) (fs : FS)
    (force : Bool) :
    (dump_trajectories t e fs force).2.doneMarker = fs.doneMarker := by
  cases hdir : t.trajectory_dump_dir with
  | none => rw [dump_trajectories_none t e fs force hdir]
  | some d =>
      rw [dump_trajectories_some t e fs force d hdir, dump_core_eq]
      split <;> rfl

theorem reset_preserves (t : BaseTrainer) (o : Option String) (fs : FS)
    (t2 : BaseTrainer) (fs2 : FS) (h : reset t o fs = .ok (t2, fs2)) :
    t2.async_mode = t.async_mode ∧ fs2.doneMarker = fs.doneMarker := by
  cases o with
  | some d =>
      rw [reset_ok_of_arg t fs d] at h
      have h' := Except.ok.inj h
      have ht2 : ({ t with trainer_reset_called := true, output_dir := some d } :
        BaseTrainer) = t2 := congrArg Prod.fst h'
      have hf2 : ({ fs with outputDirExists := true } : FS) = fs2 :=
        congrArg Prod.snd h'
      subst ht2
      subst hf2
      exact ⟨rfl, rfl⟩
  | none =>
      cases ho : t.output_dir with
      | none =>
          rw [reset_error_of_no_output_dir t fs ho] at h
          exact nomatch h
      | some d =>
          rw [reset_ok_of_output_dir t fs d ho] at h
          have h' := Except.ok.inj h
          have ht2 : ({ t with trainer_reset_called := true } : BaseTrainer) = t2 :=
            congrArg Prod.fst h'
          have hf2 : ({ fs with outputDirExists := true } : FS) = fs2 :=
            congrArg Prod.snd h'
          subst ht2
          subst hf2
          exact ⟨rfl, rfl⟩

theorem loop_iter_async {σ : Type} (H : Hooks σ) (HP : PreservesAsyncMode H)
    (ev : Bool) (st : LoopState σ) :
    (loop_iter H ev st).t.async_mode = st.t.async_mode := by
  simp [loop_iter, dump_preserves_async, HP.1, HP.2.1]

theorem loop_iter_doneMarker {σ : Type} (H : Hooks σ) (ev : Bool)
    (st : LoopState σ) :
    (loop_iter H ev st).fs.doneMarker = st.fs.doneMarker := by
  simp [loop_iter, dump_preserves_doneMarker]

theorem loop_iters_async {σ : Type} (H : Hooks σ) (HP : PreservesAsyncMode H)
    (ev : Bool) (k : Nat) (st : LoopState σ) :
    (loop_iters H ev k st).t.async_mode = st.t.async_mode := by
  induction k generalizing st with
  | zero => rfl
  | succ k ih => rw [loop_iters, ih, loop_iter_async H HP]

theorem loop_iters_doneMarker {σ : Type} (H : Hooks σ) (ev : Bool) (k : Nat)
    (st : LoopState σ) :
    (loop_iters H ev k st).fs.doneMarker = st.fs.doneMarker := by
  induction k generalizing st with
  | zero => rfl
  | succ k ih => rw [loop_iters, ih, loop_iter_doneMarker H]

theorem after_loop_doneMarker {σ : Type} (H : Hooks σ) (ev : Bool)
    (st : LoopState σ) (HP : PreservesAsyncMode H)
    (ha : st.t.async_mode = false) :
    (after_loop H ev st).fs.doneMarker = st.fs.doneMarker := by
  obtain ⟨HP1, HP2, HP3, HP4, HP5⟩ := HP
  simp only [after_loop]
  rw [indicate_done]
  have hax : (H.flush_summaries (if ev = true then
      H.evaluate
        ((dump_trajectories (H.save (st.t, st.s)).1
            (H.epoch (H.save (st.t, st.s)).2) st.fs true).1,
          (H.save (st.t, st.s)).2)
      else
        ((dump_trajectories (H.save (st.t, st.s)).1
            (H.epoch (H.save (st.t, st.s)).2) st.fs true).1,
          (H.save (st.t, st.s)).2))).1.async_mode = false := by
    rw [HP5]
    cases ev <;> simp [HP4, dump_preserves_async, HP3, ha]
  rw [hax]
  simp [dump_preserves_doneMarker]

theorem training_loop_of_reset_called {σ : Type} (H : Hooks σ) (n : Nat)
    (ev : Bool) (st : LoopState σ) (hrc : st.t.trainer_reset_called = true) :
    training_loop H n ev st =
      .ok (after_loop H ev (loop_iters H ev (n - H.epoch st.s) st)) := by
  obtain ⟨t0, s0, fs0, tr0⟩ := st
  obtain ⟨f1, f2, f3, f4, f5, f6, f7, f8, f9, f10, f11⟩ := t0
  cases hrc
  rfl

theorem training_loop_of_reset_uncalled {σ : Type} (H : Hooks σ) (n : Nat)
    (ev : Bool) (st : LoopState σ) (t1 : BaseTrainer) (fs1 : FS)
    (hrc : st.t.trainer_reset_called = false)
    (hres : reset st.t st.t.output_dir st.fs = .ok (t1, fs1)) :
    training_loop H n ev st =
      .ok (after_loop H ev (loop_iters H ev (n - H.epoch st.s)
        { st with t := t1, fs := fs1, trace := st.trace ++ [Event.reset] })) := by
  obtain ⟨t0, s0, fs0, tr0⟩ := st
  obtain ⟨f1, f2, f3, f4, f5, f6, f7, f8, f9, f10, f11⟩ := t0
  cases hrc
  cases f10 with
  | none => exact nomatch hres
  | some d =>
      have h' := Except.ok.inj hres
      have ht1 : ({
              train_env := f1, action_space := f2, observation_space := f3,
              should_reset_train_env := f4, eval_env := f5,
              trajectory_dump_dir := f6, trajectory_dump_min_count_per_shard := f7,
              trajectory_buffer := f8, async_mode := f9, output_dir := some d,
              trainer_reset_called := true } : BaseTrainer) = t1 :=
        congrArg Prod.fst h'
      have hf1 : ({ fs0 with outputDirExists := true } : FS) = fs1 :=
        congrArg Prod.snd h'
      subst ht1
      subst hf1
      rfl

theorem training_loop_of_reset_failed {σ : Type} (H : Hooks σ) (n : Nat)
    (ev : Bool) (st : LoopState σ) (err : TrainerError)
    (hrc : st.t.trainer_reset_called = false)
    (hres : reset st.t st.t.output_dir st.fs = .error err) :
    training_loop H n ev st = .error err := by
  obtain ⟨t0, s0, fs0, tr0⟩ := st
  obtain ⟨f1, f2, f3, f4, f5, f6, f7, f8, f9, f10, f11⟩ := t0
  cases hrc
  cases f10 with
  | none =>
      have herr : TrainerError.MisconfiguredOutput = err := Except.error.inj hres
      subst herr
      rfl
  | some d => exact nomatch hres

/-- C8: `indicate_done` writes the `__done__` marker iff async mode is on —
in async mode the marker is written; in non-async mode `indicate_done` is a
no-op — and after a full `training_loop` run of a non-async trainer (whose
hooks do not toggle async mode) the marker's existence is exactly what it was
before the run, so an initially absent marker remains absent. -/
theorem C8_done_marker {σ : Type} (H : Hooks σ) (n : Nat) (ev : Bool)
    (st stf : LoopState σ) (t : BaseTrainer) (fs : FS)
    (HP : PreservesAsyncMode H) (ha : st.t.async_mode = false)
    (hrun : training_loop H n ev st = .ok stf) :
    (t.async_mode = true → (indicate_done t fs).doneMarker = true) ∧
    (t.async_mode = false → indicate_done t fs = fs) ∧
    stf.fs.doneMarker = st.fs.doneMarker := by
  refine ⟨fun h => by simp [indicate_done, h], fun h => by simp [indicate_done, h], ?_⟩
  cases hrc : st.t.trainer_reset_called with
  | true =>
      rw [training_loop_of_reset_called H n ev st hrc] at hrun
      have hst := Except.ok.inj hrun
      subst hst
      rw [after_loop_doneMarker _ _ _ HP (by rw [loop_iters_async H HP, ha]),
        loop_iters_doneMarker]
  | false =>
      cases hres : reset st.t st.t.output_dir st.fs with
      | error err =>
          rw [training_loop_of_reset_failed H n ev st err hrc hres] at hrun
          exact nomatch hrun
      | ok p =>
          obtain ⟨t1, fs1⟩ := p
          rw [training_loop_of_reset_uncalled H n ev st t1 fs1 hrc hres] at hrun
          have hst := Except.ok.inj hrun
          subst hst
          obtain ⟨hasy, hdm⟩ :=
            reset_preserves st.t st.t.output_dir st.fs t1 fs1 hres
          rw [after_loop_doneMarker _ _ _ HP
              (by rw [loop_iters_async H HP]; exact hasy.trans ha),
            loop_iters_doneMarker]
          exact hdm

/-- Witness for C8: the marker appears for an async trainer, `indicate_done`
is the identity for a non-async one, and a full concrete non-async run leaves
the marker exactly as absent as it started. -/
theorem C8_witness :
    (indicate_done asyncTrainer emptyFS).doneMarker = true ∧
    indicate_done trainerReady emptyFS = emptyFS ∧
    ({ t := trainerReady, s := 2, fs := emptyFS,
        trace := [Event.train_epoch false, Event.maybe_save, Event.dump false,
          Event.train_epoch false, Event.maybe_save, Event.dump false,
          Event.save, Event.dump true, Event.flush_summaries,
          Event.indicate_done] } : LoopState Nat).fs.doneMarker =
      loopStart.fs.doneMarker := by
  have h1 := C8_done_marker (natHooks 1) 2 false loopStart
    { t := trainerReady, s := 2, fs := emptyFS,
      trace := [Event.train_epoch false, Event.maybe_save, Event.dump false,
        Event.train_epoch false, Event.maybe_save, Event.dump false,
        Event.save, Event.dump true, Event.flush_summaries,
        Event.indicate_done] } asyncTrainer emptyFS
    ⟨fun _ _ => rfl, fun _ => rfl, fun _ => rfl, fun _ => rfl, fun _ => rfl⟩
    rfl (by rfl)
  have h2 := C8_done_marker (natHooks 1) 2 false loopStart
    { t := trainerReady, s := 2, fs := emptyFS,
      trace := [Event.train_epoch false, Event.maybe_save, Event.dump false,
        Event.train_epoch false, Event.maybe_save, Event.dump false,
        Event.save, Event.dump true, Event.flush_summaries,
        Event.indicate_done] } trainerReady emptyFS
    ⟨fun _ _ => rfl, fun _ => rfl, fun _ => rfl, fun _ => rfl, fun _ => rfl⟩
    rfl (by rfl)
  exact ⟨h1.1 rfl, h2.2.1 rfl, h1.2.2⟩

theorem loop_iters_trace {σ : Type} (H : Hooks σ) (ev : Bool) (k : Nat)
    (st : LoopState σ) :
    (loop_iters H ev k st).trace = st.trace ++
      (List.replicate k
        [Event.train_epoch ev, Event.maybe_save, Event.dump false]).flatten := by
  induction k generalizing st with
  | zero => simp [loop_iters]
  | succ k ih =>
      rw [loop_iters, ih]
      simp [loop_iter, List.replicate_succ, List.append_assoc]

theorem loop_iters_s_epoch {σ : Type} (H : Hooks σ) (ev : Bool)
    (h1 : ∀ b p, H.epoch (H.train_epoch b p).2 = H.epoch p.2 + 1)
    (h2 : ∀ p, H.epoch (H.maybe_save p).2 = H.epoch p.2)
    (k : Nat) (st : LoopState σ) :
    H.epoch (loop_iters H ev k st).s = H.epoch st.s + k := by
  induction k generalizing st with
  | zero => rfl
  | succ k ih =>
      rw [loop_iters, ih]
      have hstep : H.epoch (loop_iter H ev st).s = H.epoch st.s + 1 := by
        simp [loop_iter, h2, h1]
      rw [hstep]
      omega

theorem after_loop_trace {σ : Type} (H : Hooks σ) (ev : Bool)
    (st : LoopState σ) :
    (after_loop H ev st).trace = st.trace ++ [Event.save, Event.dump true] ++
      (if ev then [Event.evaluate] else []) ++
      [Event.flush_summaries, Event.indicate_done] := rfl

/-- C2 (amended): once reset has been performed, `training_loop(n_epochs,
evaluate)` runs the body — epoch-training hook, maybe-save hook,
`dump(force=false)` — exactly `n_epochs - initial epoch` times (zero when the
initial epoch is at least `n_epochs`): the iteration count is fixed at loop
entry by `range(self.epoch, n_epochs)`. Afterwards it invokes save, then
`dump(force=true)`, then the evaluation hook iff `evaluate`, then the
flush-summaries hook, then the completion signal, in that order. When each
epoch-training call advances the epoch counter by exactly one and the
maybe-save hook leaves it unchanged, the counter equals `n_epochs` when the
loop exits. -/
theorem C2_loop_structure {σ : Type} (H : Hooks σ) (n_epochs : Nat)
    (ev : Bool) (st : LoopState σ) (hrc : st.t.trainer_reset_called = true)
    (h1 : ∀ b p, H.epoch (H.train_epoch b p).2 = H.epoch p.2 + 1)
    (h2 : ∀ p, H.epoch (H.maybe_save p).2 = H.epoch p.2)
    (hle : H.epoch st.s ≤ n_epochs) :
    training_loop H n_epochs ev st =
      .ok (after_loop H ev (loop_iters H ev (n_epochs - H.epoch st.s) st)) ∧
    (after_loop H ev (loop_iters H ev (n_epochs - H.epoch st.s) st)).trace =
      st.trace ++
        (List.replicate (n_epochs - H.epoch st.s)
          [Event.train_epoch ev, Event.maybe_save, Event.dump false]).flatten ++
        [Event.save, Event.dump true] ++
        (if ev then [Event.evaluate] else []) ++
        [Event.flush_summaries, Event.indicate_done] ∧
    H.epoch (loop_iters H ev (n_epochs - H.epoch st.s) st).s = n_epochs := by
  refine ⟨training_loop_of_reset_called H n_epochs ev st hrc, ?_, ?_⟩
  · rw [after_loop_trace, loop_iters_trace]
  · rw [loop_iters_s_epoch H ev h1 h2]
    omega

/-- Counterexample to C2 as stated: with an epoch-training hook that advances
the counter by 2 each call, starting at epoch 0 with `totalEpochs = 2`, the
loop body runs twice — the trace shows a second iteration after the counter
already reached 2 — and the loop exits with the counter at 4, not at
`totalEpochs`: the loop is bounded by `range(self.epoch, n_epochs)` computed
once at entry, not by re-testing the counter. -/
theorem C2_counterexample :
    training_loop (natHooks 2) 2 false loopStart =
      .ok { t := trainerReady, s := 4, fs := emptyFS,
            trace := [Event.train_epoch false, Event.maybe_save, Event.dump false,
          Event.train_epoch false, Event.maybe_save, Event.dump false,
          Event.save, Event.dump true, Event.flush_summaries,
          Event.indicate_done] } ∧
    (natHooks 2).epoch (4 : Nat) = 4 ∧ (4 : Nat) ≠ 2 :=
  ⟨rfl, rfl, by decide⟩

/-- Witness for C2 (amended) at a concrete unit-advance subclass: two body
iterations, the post-loop order, and a final loop counter of exactly 2. -/
theorem C2_witness :
    training_loop (natHooks 1) 2 false loopStart =
      .ok (after_loop (natHooks 1) false
        (loop_iters (natHooks 1) false
          (2 - (natHooks 1).epoch loopStart.s) loopStart)) ∧
    (after_loop (natHooks 1) false
        (loop_iters (natHooks 1) false
          (2 - (natHooks 1).epoch loopStart.s) loopStart)).trace =
      [Event.train_epoch false, Event.maybe_save, Event.dump false,
        Event.train_epoch false, Event.maybe_save, Event.dump false,
        Event.save, Event.dump true, Event.flush_summaries,
        Event.indicate_done] ∧
    (natHooks 1).epoch
      (loop_iters (natHooks 1) false
        (2 - (natHooks 1).epoch loopStart.s) loopStart).s = 2 := by
  have h := C2_loop_structure (natHooks 1) 2 false loopStart rfl
    (fun b p => rfl) (fun p => rfl) (by decide)
  refine ⟨h.1, ?_, h.2.2⟩
  rw [h.2.1]
  rfl
